import Mathlib

/-
  Verification of the natural-language specification of chainlink
  (src/chainlink.py) against the source.

  chainlink.py is a command-line script for concatenative audio synthesis.
  The parts exercised by the claims are:

  * `convert_ms_to_frames(chunk_size_ms, framerate)`
      = `int(framerate * (chunk_size_ms / 1000.0))`, evaluated in Python,
      i.e. in IEEE-754 binary64 ("double") arithmetic;
  * `process_options()`, which iterates over the `(opt, arg)` pairs that
      `getopt.getopt(sys.argv[1:], "hvmc:", ["input1=", "input2=",
      "output=", "chunk_size="])` produced, and
  * `check_options(input_dir1, input_dir2, output_dir, chunk_size, usage)`,
      which validates the argument values against the file system.

  The embedding starts from the `(opt, arg)` pair list (getopt's output),
  relying on getopt's documented guarantees: pairs appear in command-line
  order, options declared with a trailing `=`/`:` always carry a string
  argument (never `None`, so the source's `if arg is not None:` guards are
  always taken), and flag options carry the empty string.  The file system
  is abstracted as an environment of boolean/list-valued functions.
-/

set_option autoImplicit false
set_option maxRecDepth 16384
set_option maxHeartbeats 1600000

namespace Chainlink

/-! ### IEEE-754 binary64 model (for `convert_ms_to_frames`)

Python floats are IEEE-754 binary64 values.  We model a (finite, normal)
double as the exact rational it denotes, and each arithmetic step as the
exact rational operation followed by rounding to 53 significant bits with
round-to-nearest, ties-to-even.  Overflow and subnormals are not modelled;
every value appearing in the claims is far inside the normal range. -/

/-- A nonnegative exact rational, as an unreduced fraction `num / den`
with `den > 0` maintained by construction.  Every quantity in
`convert_ms_to_frames` (framerate, chunk size, their quotient and
product) is nonnegative, so the sign-free representation is faithful. -/
abbrev Frac := ℕ × ℕ

/-- Fuel-based bit length: `natLog2F fuel n` = ⌊log₂ n⌋ for `n ≥ 1` whenever `fuel ≥ n` (0 for
`n ≤ 1`).  Fuel-structured so that the kernel can evaluate it. -/
def natLog2F : ℕ → ℕ → ℕ
  | 0, _ => 0
  | fuel + 1, n => if n ≤ 1 then 0 else natLog2F fuel (n / 2) + 1

/-- Whether `n / d < 2 ^ k` (exactly, as rationals), for `d > 0` and an
integer exponent `k`, by cross-multiplication. -/
def ltPow2 (n d : ℕ) (k : ℤ) : Bool :=
  if 0 ≤ k then n < d * Nat.pow 2 k.toNat else n * Nat.pow 2 (-k).toNat < d

/-- Floor logarithm `⌊log₂ (n / d)⌋` for `n, d ≥ 1`: the unique `k` with
`2 ^ k ≤ n / d < 2 ^ (k + 1)`.  The bit-length difference of `n` and `d`
overestimates it by at most one, so one comparison fixes it up. -/
def flog2 (n d : ℕ) : ℤ :=
  let k : ℤ := (natLog2F n n : ℤ) - (natLog2F d d : ℤ)
  if ltPow2 n d k then k - 1 else if ltPow2 n d (k + 1) then k else k + 1

/-- Round `n / d` (with `d > 0`) to the nearest natural number, ties to
even, via the division remainder. -/
def roundNearestEven (n d : ℕ) : ℕ :=
  let q := n / d
  let r := n % d
  if 2 * r < d then q
  else if d < 2 * r then q + 1
  else if q % 2 = 0 then q else q + 1

/-- Round a nonnegative exact rational to the nearest IEEE-754 binary64
value (round-to-nearest, ties-to-even): scale `n / d` by `2 ^ (52 - L)`
(`L` its floor log₂) into `[2 ^ 52, 2 ^ 53)`, round to an integer
mantissa, and scale back.  Overflow and subnormals are not modelled;
every value appearing in the claims is far inside the normal range. -/
def floatRound (x : Frac) : Frac :=
  if x.1 = 0 then (0, 1)
  else
    let s : ℤ := 52 - flog2 x.1 x.2
    let m :=
      if 0 ≤ s then roundNearestEven (x.1 * Nat.pow 2 s.toNat) x.2
      else roundNearestEven x.1 (x.2 * Nat.pow 2 (-s).toNat)
    if 0 ≤ s then (m, Nat.pow 2 s.toNat) else (m * Nat.pow 2 (-s).toNat, 1)

/-- The double obtained by converting a nonnegative Python `int` to
`float` (exact below `2 ^ 53`, rounded to nearest above). -/
def floatOfNat (n : ℕ) : Frac := floatRound (n, 1)

/-- IEEE division: exact quotient, then one rounding. -/
def floatDiv (x y : Frac) : Frac := floatRound (x.1 * y.2, x.2 * y.1)

/-- IEEE multiplication: exact product, then one rounding. -/
def floatMul (x y : Frac) : Frac := floatRound (x.1 * y.1, x.2 * y.2)

/-- Embedding of `convert_ms_to_frames` (src/chainlink.py:205-214):
`return int(framerate * (chunk_size_ms / 1000.0))`, evaluated in Python
float (binary64) arithmetic: `chunk_size_ms / 1000.0` converts the int to
a double and performs one correctly rounded division; the multiplication
by `framerate` converts the int and performs one correctly rounded
multiplication; `int(...)` truncates toward zero, which on these
nonnegative values is the floor `num / den`. -/
def convert_ms_to_frames (chunk_size_ms framerate : ℕ) : ℕ :=
  let d := floatDiv (floatOfNat chunk_size_ms) (floatOfNat 1000)
  let p := floatMul (floatOfNat framerate) d
  p.1 / p.2

/-- The exact value the spec requires:
`floor(framerate * chunk_size_ms / 1000)` (natural-number division). -/
def exactFrames (chunk_size_ms framerate : ℕ) : ℕ :=
  framerate * chunk_size_ms / 1000

/-! ### CLI model: `check_options` and `process_options`

Messages printed by the source, one constant per `print` call.  The
leading `os.linesep` of the mandatory-options error is immaterial and
dropped; the traceback printed by `traceback.print_exc` is represented by
its first line. -/

/-- Message "Input directory 1 does not exist" (src/chainlink.py:128). -/
def msgNoDir1 : String := "Input directory 1 does not exist"

/-- Message "Input directory 2 does not exist" (src/chainlink.py:132). -/
def msgNoDir2 : String := "Input directory 2 does not exist"

/-- Message "No wavs in input directory 1" (src/chainlink.py:142). -/
def msgNoWav1 : String := "No wavs in input directory 1"

/-- Message "No wavs in input directory 2" (src/chainlink.py:151). -/
def msgNoWav2 : String := "No wavs in input directory 2"

/-- Stand-in for the traceback printed when `os.makedirs` fails
(src/chainlink.py:159). -/
def msgTraceback : String := "Traceback (most recent call last):"

/-- Message "Chunk size must be between 10 and 1000 (milliseconds)"
(src/chainlink.py:165). -/
def msgChunkRange : String := "Chunk size must be between 10 and 1000 (milliseconds)"

/-- Message "Chunk size must be an integer between 10 and 1000"
(src/chainlink.py:168). -/
def msgChunkInt : String := "Chunk size must be an integer between 10 and 1000"

/-- Message "Errors detected with mandatory options" (src/chainlink.py:106). -/
def msgMandatory : String := "Errors detected with mandatory options"

/-- The usage message defined at src/chainlink.py:28-58.  Only its first
line is reproduced; the claims treat the usage text as a single atomic
output item, distinct from every error message above. -/
def usageText : String :=
  "Usage: python chainlink.py --input1 <arg> --input2 <arg> --output <arg> --chunk_size <arg> [-v] [-m] [-c cores] [-h]"

/-- Abstraction of the file-system facts `check_options` consults:
`os.path.isdir`, `os.listdir`, `sndhdr.what` (whether the header of the
file at a given path identifies a wav), and whether `os.makedirs` on a
path would succeed.  `os.listdir` raises (`FileNotFoundError` /
`NotADirectoryError`) exactly when its argument is not a directory;
`sndhdr.what` is assumed to return normally for listed files. -/
structure Env where
  isdir : String → Bool
  listdir : String → List String
  isWavHdr : String → Bool
  makedirsOk : String → Bool

/-- Path join `os.path.join` for the paths appearing here. -/
def joinPath (d f : String) : String := d ++ "/" ++ f

/-- How a call of `check_options` / the surrounding script run ends:
normal return, `sys.exit(code)`, or an uncaught Python exception. -/
inductive Outcome where
  | ok
  | exited (code : ℕ)
  | exc (name : String)
deriving DecidableEq

/-- Result of running a modelled fragment: the lines printed, in order,
and how the run ended. -/
structure RunResult where
  output : List String
  outcome : Outcome
deriving DecidableEq

/-- A Python value that is either an `int` or a `str` (the two shapes the
source stores in `chunk_size` and `cores`). -/
inductive PyVal where
  | int (n : ℤ)
  | str (s : String)
deriving DecidableEq

/-- The loop-with-else idiom of src/chainlink.py:136-143 (and 145-152):
scan a directory listing, breaking as soon as `sndhdr.what` identifies a
wav.  The `else:` branch runs exactly when no entry matched, i.e. this
boolean is false. -/
def hasWavIn (env : Env) (dir : String) : Bool :=
  (env.listdir dir).any fun f => env.isWavHdr (joinPath dir f)

/-- Embedding of `check_options(input_dir1, input_dir2, output_dir, chunk_size, usage)`
(src/chainlink.py:117-174), translated statement by statement:

1. missing-directory checks print their messages and set `is_invalid`;
2. the wav scan of input dir 1 calls `os.listdir(input_dir1)`
   unconditionally, which raises when that path is not a directory;
   likewise for input dir 2;
3. a missing output directory is created with `os.makedirs`; only a
   failure of that call prints a traceback and sets `is_invalid`;
4. the chunk-size check distinguishes `int` from non-`int` values;
5. finally, if `is_invalid`, the usage text is printed and
   `sys.exit(1)` runs; otherwise the function returns normally. -/
def check_options (env : Env) (input_dir1 input_dir2 output_dir : String)
    (chunk_size : PyVal) (usage : String) : RunResult :=
  let dir1ok := env.isdir input_dir1
  let dir2ok := env.isdir input_dir2
  let out2 := (if dir1ok then [] else [msgNoDir1])
    ++ (if dir2ok then [] else [msgNoDir2])
  let inv2 := !dir1ok || !dir2ok
  if !dir1ok then { output := out2, outcome := .exc "FileNotFoundError" }
  else
    let wav1 := hasWavIn env input_dir1
    let out3 := out2 ++ (if wav1 then [] else [msgNoWav1])
    let inv3 := inv2 || !wav1
    if !dir2ok then { output := out3, outcome := .exc "FileNotFoundError" }
    else
      let wav2 := hasWavIn env input_dir2
      let out4 := out3 ++ (if wav2 then [] else [msgNoWav2])
      let inv4 := inv3 || !wav2
      let mk := env.isdir output_dir || env.makedirsOk output_dir
      let out5 := out4 ++ (if mk then [] else [msgTraceback])
      let inv5 := inv4 || !mk
      let step6 :=
        match chunk_size with
        | .int n =>
          if n < 10 ∨ 1000 < n then (out5 ++ [msgChunkRange], true)
          else (out5, inv5)
        | .str _ => (out5 ++ [msgChunkInt], true)
      if step6.2 then { output := step6.1 ++ [usage], outcome := .exited 1 }
      else { output := step6.1, outcome := .ok }

/-- The options `getopt.getopt(sys.argv[1:], "hvmc:", ["input1=",
"input2=", "output=", "chunk_size="])` can emit (src/chainlink.py:74-75). -/
inductive Opt where
  | input1
  | input2
  | output
  | chunk_size
  | v
  | m
  | c
  | h
deriving DecidableEq

/-- The local variables of `process_options` as they stand when the
option loop (src/chainlink.py:77-102) is at an iteration boundary.
Python locals that may be unbound are `Option`s. -/
structure POState where
  input_dir1 : Option String
  input_dir2 : Option String
  output_dir : Option String
  chunk_size : Option ℤ
  is_verbose : Bool
  is_mp : Bool
  cores : PyVal
  mandatory_checks : ℕ
deriving DecidableEq

/-- State on entry to the loop (src/chainlink.py:61-71): verbosity and
multiprocessing off, `cores = 2` (an `int`), no mandatory option seen,
the four mandatory locals unbound. -/
def initState : POState :=
  { input_dir1 := none, input_dir2 := none, output_dir := none,
    chunk_size := none, is_verbose := false, is_mp := false,
    cores := PyVal.int 2, mandatory_checks := 0 }

/-- Early terminations of the option loop: `-h` prints usage and exits 0;
`int(arg)` on an unparseable `--chunk_size` argument raises `ValueError`. -/
inductive LoopStop where
  | help
  | valueErr
deriving DecidableEq

/-- ASCII whitespace as stripped by Python `int()`:
space, tab, newline, carriage return, form feed, vertical tab. -/
def isPySpace (c : Char) : Bool :=
  c.toNat = 32 ∨ c.toNat = 9 ∨ c.toNat = 10 ∨ c.toNat = 13
    ∨ c.toNat = 12 ∨ c.toNat = 11

/-- An ASCII decimal digit. -/
def isDigitChar (c : Char) : Bool := 48 ≤ c.toNat ∧ c.toNat ≤ 57

/-- Python `int(s)` on a string: optional surrounding whitespace, an
optional sign, then a nonempty digit string; anything else raises
`ValueError`, modelled as `none`.  (Python additionally accepts
underscore digit grouping and non-ASCII digits; no string appearing in
the claims uses either.) -/
def pyIntOfString? (s : String) : Option ℤ :=
  let t := ((s.data.dropWhile isPySpace).reverse.dropWhile isPySpace).reverse
  let signed :=
    match t with
    | '-' :: rest => (true, rest)
    | '+' :: rest => (false, rest)
    | _ => (false, t)
  if signed.2 ≠ [] ∧ signed.2.all isDigitChar then
    let v : ℤ := signed.2.foldl (fun a ch => 10 * a + ((ch.toNat : ℤ) - 48)) 0
    some (if signed.1 then -v else v)
  else none

/-- The option loop of src/chainlink.py:77-102, one iteration per
`(opt, arg)` pair, in command-line order.  `arg is not None` is always
true under getopt, so each mandatory option stores its argument and
increments `mandatory_checks` unconditionally; `-c` stores the *string*
argument into `cores`; `-h` exits; a bad `--chunk_size` argument raises. -/
def runLoop (st : POState) : List (Opt × String) → LoopStop ⊕ POState
  | [] => Sum.inr st
  | (o, arg) :: rest =>
    match o with
    | Opt.input1 =>
      runLoop { st with input_dir1 := some arg,
                        mandatory_checks := st.mandatory_checks + 1 } rest
    | Opt.input2 =>
      runLoop { st with input_dir2 := some arg,
                        mandatory_checks := st.mandatory_checks + 1 } rest
    | Opt.output =>
      runLoop { st with output_dir := some arg,
                        mandatory_checks := st.mandatory_checks + 1 } rest
    | Opt.chunk_size =>
      match pyIntOfString? arg with
      | some n =>
        runLoop { st with chunk_size := some n,
                          mandatory_checks := st.mandatory_checks + 1 } rest
      | none => Sum.inl LoopStop.valueErr
    | Opt.v => runLoop { st with is_verbose := true } rest
    | Opt.m => runLoop { st with is_mp := true } rest
    | Opt.c => runLoop { st with cores := PyVal.str arg } rest
    | Opt.h => Sum.inl LoopStop.help

/-- The tuple `process_options` returns (src/chainlink.py:114). -/
structure Config where
  input_dir1 : String
  input_dir2 : String
  output_dir : String
  chunk_size : ℤ
  is_verbose : Bool
  is_mp : Bool
  cores : PyVal
deriving DecidableEq

/-- Result of a `process_options` call: printed lines, how it ended, and
the returned tuple when it returned normally. -/
structure POResult where
  output : List String
  outcome : Outcome
  ret : Option Config
deriving DecidableEq

/-- Embedding of `process_options()` (src/chainlink.py:19-114) given the `(opt, arg)`
pairs getopt produced: run the option loop; if it survives, require
`mandatory_checks == 4` (else print the error and usage and exit 1);
then evaluate the `check_options(input_dir1, ...)` call, which raises
`UnboundLocalError` if a mandatory local was never assigned; propagate
`check_options`'s exit/exception, and otherwise return the option tuple. -/
def process_options (env : Env) (opts : List (Opt × String)) : POResult :=
  match runLoop initState opts with
  | Sum.inl LoopStop.help =>
    { output := [usageText], outcome := .exited 0, ret := none }
  | Sum.inl LoopStop.valueErr =>
    { output := [], outcome := .exc "ValueError", ret := none }
  | Sum.inr st =>
    if st.mandatory_checks ≠ 4 then
      { output := [msgMandatory, usageText], outcome := .exited 1, ret := none }
    else
      match st.input_dir1, st.input_dir2, st.output_dir, st.chunk_size with
      | some d1, some d2, some od, some cs =>
        let chk := check_options env d1 d2 od (PyVal.int cs) usageText
        match chk.outcome with
        | Outcome.ok =>
          { output := chk.output, outcome := .ok,
            ret := some { input_dir1 := d1, input_dir2 := d2,
                          output_dir := od, chunk_size := cs,
                          is_verbose := st.is_verbose, is_mp := st.is_mp,
                          cores := st.cores } }
        | oc => { output := chk.output, outcome := oc, ret := none }
      | _, _, _, _ =>
        { output := [], outcome := .exc "UnboundLocalError", ret := none }

/-- Exit status of the whole script run for a `process_options` result:
`sys.exit(code)` yields `code`; an uncaught exception makes the Python
interpreter exit with status 1; a normal return leads (in this stub) to
a status-0 run. -/
def exitStatus (r : POResult) : ℕ :=
  match r.outcome with
  | Outcome.ok => 0
  | Outcome.exited n => n
  | Outcome.exc _ => 1

/-- An environment in which every path is a directory containing one wav
file and every `makedirs` succeeds. -/
def envAll : Env :=
  { isdir := fun _ => true, listdir := fun _ => ["a.wav"],
    isWavHdr := fun _ => true, makedirsOk := fun _ => true }

/-- An environment in which no path exists. -/
def envNone : Env :=
  { isdir := fun _ => false, listdir := fun _ => [],
    isWavHdr := fun _ => false, makedirsOk := fun _ => false }

/-- The four mandatory options (src/chainlink.py:78-93). -/
def requiredOpt (o : Opt) : Bool :=
  match o with
  | Opt.input1 => true
  | Opt.input2 => true
  | Opt.output => true
  | Opt.chunk_size => true
  | _ => false

/-- Number of mandatory-option occurrences in an option list; the loop's
`mandatory_checks` counter equals this when the loop completes. -/
def mandatoryCount (opts : List (Opt × String)) : ℕ :=
  opts.countP fun p => requiredOpt p.1

/-- A `--chunk_size` occurrence whose argument `int()` cannot parse. -/
def badChunkOpt (p : Opt × String) : Bool :=
  match p.1 with
  | Opt.chunk_size => (pyIntOfString? p.2).isNone
  | _ => false

/-- An environment in which every path is a directory listing one file,
recognized as a wav only inside directory `in2`. -/
def envWav2 : Env :=
  { isdir := fun _ => true, listdir := fun _ => ["x"],
    isWavHdr := fun p => p == "in2/x", makedirsOk := fun _ => true }

/-- An environment in which every path except `out` is a directory with
one wav, and directory creation succeeds. -/
def envMkdir : Env :=
  { isdir := fun s => !(s == "out"), listdir := fun _ => ["a.wav"],
    isWavHdr := fun _ => true, makedirsOk := fun _ => true }

/-- A command line missing `--chunk_size` (three mandatory options). -/
def optsMissingOne : List (Opt × String) :=
  [(Opt.input1, "a"), (Opt.input2, "b"), (Opt.output, "o")]

/-- The loop state `optsMissingOne` produces. -/
def stMissingOne : POState :=
  { input_dir1 := some "a", input_dir2 := some "b", output_dir := some "o",
    chunk_size := none, is_verbose := false, is_mp := false,
    cores := PyVal.int 2, mandatory_checks := 3 }

/-- A command line that supplies `--input1` twice and never supplies
`--input2`, yet contains four mandatory-option occurrences. -/
def dupOpts : List (Opt × String) :=
  [(Opt.input1, "a"), (Opt.input1, "b"), (Opt.output, "o"),
   (Opt.chunk_size, "500")]

/-- A command line with an unparseable `--chunk_size` argument before
`-h`. -/
def optsBadChunkThenHelp : List (Opt × String) :=
  [(Opt.chunk_size, "abc"), (Opt.h, "")]

/-- A command line with `-h` before an unparseable `--chunk_size`
argument. -/
def optsHelpThenBadChunk : List (Opt × String) :=
  [(Opt.h, ""), (Opt.chunk_size, "abc")]

/-- A full valid command line requesting multiprocessing without `-c`. -/
def optsMp : List (Opt × String) :=
  [(Opt.m, ""), (Opt.input1, "in1"), (Opt.input2, "in2"),
   (Opt.output, "out"), (Opt.chunk_size, "500")]

/-- The configuration `optsMp` produces under `envAll`. -/
def cfgMp : Config :=
  { input_dir1 := "in1", input_dir2 := "in2", output_dir := "out",
    chunk_size := 500, is_verbose := false, is_mp := true,
    cores := PyVal.int 2 }

/-- A full valid command line passing `-c 7`. -/
def optsCores : List (Opt × String) :=
  [(Opt.c, "7"), (Opt.input1, "in1"), (Opt.input2, "in2"),
   (Opt.output, "out"), (Opt.chunk_size, "500")]

/-- The configuration `optsCores` produces under `envAll`: note `cores`
holds the raw string `"7"`. -/
def cfgCores : Config :=
  { input_dir1 := "in1", input_dir2 := "in2", output_dir := "out",
    chunk_size := 500, is_verbose := false, is_mp := false,
    cores := PyVal.str "7" }

/-! ### Helper lemmas -/

/-- Fact: `check_options` either returns normally, exits with status 1, or
raises `FileNotFoundError`; no other ending is reachable. -/
lemma check_options_outcome_cases (env : Env) (d1 d2 od : String)
    (ch : PyVal) (usage : String) :
    (check_options env d1 d2 od ch usage).outcome = Outcome.ok ∨
    (check_options env d1 d2 od ch usage).outcome = Outcome.exited 1 ∨
    (check_options env d1 d2 od ch usage).outcome
      = Outcome.exc "FileNotFoundError" := by
  cases h1 : env.isdir d1 <;> cases h2 : env.isdir d2 <;>
    cases h3 : hasWavIn env d1 <;> cases h4 : hasWavIn env d2 <;>
    cases h5 : env.isdir od <;> cases h6 : env.makedirsOk od <;>
    rcases ch with n | s
  all_goals first
    | (by_cases hc : n < 10 ∨ 1000 < n <;>
        simp [check_options, h1, h2, h3, h4, h5, h6, hc])
    | simp [check_options, h1, h2, h3, h4, h5, h6]

/-- With an integer chunk size, every line `check_options` prints is one
of the fixed messages other than the non-integer message (or the usage
text). -/
lemma check_options_int_output_subset (env : Env) (d1 d2 od : String)
    (n : ℤ) (x : String)
    (hx : x ∈ (check_options env d1 d2 od (PyVal.int n) usageText).output) :
    x ∈ [msgNoDir1, msgNoDir2, msgNoWav1, msgNoWav2, msgTraceback,
      msgChunkRange, usageText] := by
  cases h1 : env.isdir d1 <;> cases h2 : env.isdir d2 <;>
    cases h3 : hasWavIn env d1 <;> cases h4 : hasWavIn env d2 <;>
    cases h5 : env.isdir od <;> cases h6 : env.makedirsOk od
  all_goals by_cases hc : n < 10 ∨ 1000 < n <;>
    (simp [check_options, h1, h2, h3, h4, h5, h6, hc] at hx ⊢) <;> tauto

/-- When the option loop completes, `mandatory_checks` has counted
exactly the mandatory-option occurrences of the option list. -/
lemma runLoop_inr_mandatory (opts : List (Opt × String)) :
    ∀ st st' : POState, runLoop st opts = Sum.inr st' →
      st'.mandatory_checks = st.mandatory_checks + mandatoryCount opts := by
  induction opts with
  | nil =>
    intro st st' h
    simp only [runLoop, Sum.inr.injEq] at h
    simp [← h, mandatoryCount]
  | cons p rest ih =>
    intro st st' h
    obtain ⟨o, arg⟩ := p
    cases o <;> simp only [runLoop] at h
    case h => simp at h
    case chunk_size =>
      cases hp : pyIntOfString? arg with
      | none => simp [hp] at h
      | some m =>
        simp only [hp] at h
        have := ih _ _ h
        simp only [mandatoryCount, List.countP_cons, requiredOpt] at this ⊢
        simp at this ⊢
        omega
    all_goals
      have := ih _ _ h
      simp only [mandatoryCount, List.countP_cons, requiredOpt] at this ⊢
      simp at this ⊢
      omega

/-- When `-c` never occurs, the loop leaves `cores` untouched. -/
lemma runLoop_inr_cores_eq (opts : List (Opt × String)) :
    ∀ st st' : POState, Opt.c ∉ opts.map Prod.fst →
      runLoop st opts = Sum.inr st' → st'.cores = st.cores := by
  induction opts with
  | nil =>
    intro st st' _ h
    simp only [runLoop, Sum.inr.injEq] at h
    simp [← h]
  | cons p rest ih =>
    intro st st' hc h
    obtain ⟨o, arg⟩ := p
    simp only [List.map_cons, List.mem_cons] at hc
    push_neg at hc
    obtain ⟨hc1, hc2⟩ := hc
    cases o <;> simp only [runLoop] at h
    case h => simp at h
    case c => exact absurd rfl hc1
    case chunk_size =>
      cases hp : pyIntOfString? arg with
      | none => simp [hp] at h
      | some m =>
        simp only [hp] at h
        have := ih _ _ hc2 h
        exact this
    all_goals
      have := ih _ _ hc2 h
      exact this

/-- Once `is_mp` is set, the rest of the loop keeps it set. -/
lemma runLoop_inr_mp_mono (opts : List (Opt × String)) :
    ∀ st st' : POState, runLoop st opts = Sum.inr st' →
      st.is_mp = true → st'.is_mp = true := by
  induction opts with
  | nil =>
    intro st st' h hmp
    simp only [runLoop, Sum.inr.injEq] at h
    simp [← h, hmp]
  | cons p rest ih =>
    intro st st' h hmp
    obtain ⟨o, arg⟩ := p
    cases o <;> simp only [runLoop] at h
    case h => simp at h
    case m => exact ih _ _ h rfl
    case chunk_size =>
      cases hp : pyIntOfString? arg with
      | none => simp [hp] at h
      | some m =>
        simp only [hp] at h
        exact ih _ _ h hmp
    all_goals exact ih _ _ h hmp

/-- If `-m` occurs and the loop completes, `is_mp` ends up set. -/
lemma runLoop_inr_mp (opts : List (Opt × String)) :
    ∀ st st' : POState, Opt.m ∈ opts.map Prod.fst →
      runLoop st opts = Sum.inr st' → st'.is_mp = true := by
  induction opts with
  | nil => intro st st' hm _; simp at hm
  | cons p rest ih =>
    intro st st' hm h
    obtain ⟨o, arg⟩ := p
    simp only [List.map_cons, List.mem_cons] at hm
    cases o <;> simp only [runLoop] at h
    case h => simp at h
    case m => exact runLoop_inr_mp_mono rest _ _ h rfl
    case chunk_size =>
      cases hp : pyIntOfString? arg with
      | none => simp [hp] at h
      | some k =>
        simp only [hp] at h
        exact ih _ _ (by tauto) h
    all_goals exact ih _ _ (by tauto) h

/-- If `-c` occurs and the loop completes, `cores` ends up holding the
raw string argument of some `-c` occurrence. -/
lemma runLoop_inr_cores_c (opts : List (Opt × String)) :
    ∀ st st' : POState, Opt.c ∈ opts.map Prod.fst →
      runLoop st opts = Sum.inr st' →
      ∃ a, (Opt.c, a) ∈ opts ∧ st'.cores = PyVal.str a := by
  induction opts with
  | nil => intro st st' hm _; simp at hm
  | cons p rest ih =>
    intro st st' hm h
    obtain ⟨o, arg⟩ := p
    simp only [List.map_cons, List.mem_cons] at hm
    cases o <;> simp only [runLoop] at h
    case h => simp at h
    case c =>
      by_cases hrest : Opt.c ∈ rest.map Prod.fst
      · obtain ⟨a, hmem, hs⟩ := ih _ _ hrest h
        exact ⟨a, List.mem_cons_of_mem _ hmem, hs⟩
      · refine ⟨arg, List.mem_cons_self _ _, ?_⟩
        rw [runLoop_inr_cores_eq rest _ _ hrest h]
    case chunk_size =>
      cases hp : pyIntOfString? arg with
      | none => simp [hp] at h
      | some k =>
        simp only [hp] at h
        obtain ⟨a, hmem, hs⟩ := ih _ _ (by tauto) h
        exact ⟨a, List.mem_cons_of_mem _ hmem, hs⟩
    all_goals
      obtain ⟨a, hmem, hs⟩ := ih _ _ (by tauto) h
      exact ⟨a, List.mem_cons_of_mem _ hmem, hs⟩

/-- A returned configuration comes from a completed loop whose final
state supplies the returned `cores` and `is_mp` values. -/
lemma process_options_ret_state (env : Env) (opts : List (Opt × String))
    (cfg : Config) (h : (process_options env opts).ret = some cfg) :
    ∃ st : POState, runLoop initState opts = Sum.inr st ∧
      cfg.cores = st.cores ∧ cfg.is_mp = st.is_mp := by
  unfold process_options at h
  cases hr : runLoop initState opts with
  | inl l => cases l <;> simp [hr] at h
  | inr st =>
    refine ⟨st, rfl, ?_⟩
    rw [hr] at h
    by_cases hm : st.mandatory_checks ≠ 4
    · simp [hm] at h
    · simp only [hm, if_false, ite_false] at h
      cases h1 : st.input_dir1 <;> cases h2 : st.input_dir2 <;>
        cases h3 : st.output_dir <;> cases h4 : st.chunk_size <;>
        simp [h1, h2, h3, h4] at h
      next d1 d2 od cs =>
        cases ho : (check_options env d1 d2 od (PyVal.int cs) usageText).outcome <;>
          simp [ho] at h
        rw [← h]
        exact ⟨rfl, rfl⟩

/-- If `-h` occurs and no preceding `--chunk_size` argument fails to
parse, the loop stops at the help branch. -/
lemma runLoop_help (opts : List (Opt × String)) :
    ∀ st : POState, Opt.h ∈ opts.map Prod.fst →
      (∀ p ∈ opts.takeWhile (fun q => decide (q.1 ≠ Opt.h)),
        p.1 = Opt.chunk_size → (pyIntOfString? p.2).isSome = true) →
      runLoop st opts = Sum.inl LoopStop.help := by
  induction opts with
  | nil => intro st hm _; simp at hm
  | cons p rest ih =>
    intro st hm hpre
    obtain ⟨o, arg⟩ := p
    by_cases ho : o = Opt.h
    · subst ho; simp [runLoop]
    · have hm' : Opt.h ∈ rest.map Prod.fst := by
        simp only [List.map_cons, List.mem_cons] at hm
        tauto
      have htail : List.takeWhile (fun q => decide (q.1 ≠ Opt.h))
          ((o, arg) :: rest)
          = (o, arg) :: List.takeWhile (fun q => decide (q.1 ≠ Opt.h)) rest := by
        simp [List.takeWhile_cons, ho]
      have hpre' : ∀ p ∈ rest.takeWhile (fun q => decide (q.1 ≠ Opt.h)),
          p.1 = Opt.chunk_size → (pyIntOfString? p.2).isSome = true := by
        intro p hp
        exact hpre p (by rw [htail]; exact List.mem_cons_of_mem _ hp)
      have hhead := hpre (o, arg) (by rw [htail]; exact List.mem_cons_self _ _)
      cases o with
      | h => exact absurd rfl ho
      | chunk_size =>
        simp only [runLoop]
        cases hp : pyIntOfString? arg with
        | none =>
          have hs : (pyIntOfString? arg).isSome = true := hhead rfl
          rw [hp] at hs
          simp at hs
        | some k => simp only [hp]; exact ih _ hm' hpre'
      | input1 => simp only [runLoop]; exact ih _ hm' hpre'
      | input2 => simp only [runLoop]; exact ih _ hm' hpre'
      | output => simp only [runLoop]; exact ih _ hm' hpre'
      | v => simp only [runLoop]; exact ih _ hm' hpre'
      | m => simp only [runLoop]; exact ih _ hm' hpre'
      | c => simp only [runLoop]; exact ih _ hm' hpre'

/-- If some `--chunk_size` argument fails to parse and no `-h` precedes
the first such occurrence, the loop raises `ValueError`. -/
lemma runLoop_valueErr (opts : List (Opt × String)) :
    ∀ st : POState, opts.any badChunkOpt = true →
      (∀ p ∈ opts.takeWhile (fun q => !badChunkOpt q), p.1 ≠ Opt.h) →
      runLoop st opts = Sum.inl LoopStop.valueErr := by
  induction opts with
  | nil => intro st hb _; simp at hb
  | cons p rest ih =>
    intro st hb hpre
    obtain ⟨o, arg⟩ := p
    by_cases hbad : badChunkOpt (o, arg) = true
    · cases o <;> simp only [badChunkOpt] at hbad <;> simp at hbad
      simp [runLoop, hbad]
    · have htail : List.takeWhile (fun q => !badChunkOpt q) ((o, arg) :: rest)
          = (o, arg) :: List.takeWhile (fun q => !badChunkOpt q) rest := by
        simp [List.takeWhile_cons, hbad]
      have hhead : o ≠ Opt.h :=
        hpre (o, arg) (by rw [htail]; exact List.mem_cons_self _ _)
      have hpre' : ∀ p ∈ rest.takeWhile (fun q => !badChunkOpt q),
          p.1 ≠ Opt.h := by
        intro p hp
        exact hpre p (by rw [htail]; exact List.mem_cons_of_mem _ hp)
      have hb' : rest.any badChunkOpt = true := by
        simp only [List.any_cons, hbad, Bool.false_or] at hb
        exact hb
      cases o with
      | h => exact absurd rfl hhead
      | chunk_size =>
        simp only [runLoop]
        cases hp : pyIntOfString? arg with
        | none => simp [badChunkOpt, hp] at hbad
        | some k => simp only [hp]; exact ih _ hb' hpre'
      | input1 => simp only [runLoop]; exact ih _ hb' hpre'
      | input2 => simp only [runLoop]; exact ih _ hb' hpre'
      | output => simp only [runLoop]; exact ih _ hb' hpre'
      | v => simp only [runLoop]; exact ih _ hb' hpre'
      | m => simp only [runLoop]; exact ih _ hb' hpre'
      | c => simp only [runLoop]; exact ih _ hb' hpre'

/-! ### Claim theorems -/

/-- Claim C1: the claim (and the function's own docstring) require
`convert_ms_to_frames(chunk_size_ms, framerate)` to equal
`floor(framerate * chunk_size_ms / 1000)` exactly for every positive
integer framerate and every `chunk_size_ms` in `[10, 1000]`.  The code
computes `int(framerate * (chunk_size_ms / 1000.0))` in binary64 float
arithmetic, which loses exactness: at `chunk_size_ms = 290`,
`framerate = 100` the float product is `28.999999999999996…` and the
code returns `28`, while the exact floor is `29`.  The claim's own
concrete instance `(100, 44100) = 4410` does hold. -/
theorem convert_ms_to_frames_float_rounding :
    convert_ms_to_frames 290 100 = 28 ∧ exactFrames 290 100 = 29 ∧
    convert_ms_to_frames 100 44100 = 4410 ∧ exactFrames 100 44100 = 4410 :=
  ⟨by decide, by decide, by decide, by decide⟩

/-- Claim C2: the claim says a missing input directory is reported with
the usage text and a clean exit status 1, with no unhandled exception
escaping `check_options`.  In the code, `check_options` prints the
missing-directory message but then calls `os.listdir` on the missing
path unconditionally (src/chainlink.py:136/145), so an uncaught
`FileNotFoundError` escapes and the usage text is never printed. -/
theorem check_options_missing_dir_raises (env : Env) (d1 d2 od : String)
    (ch : PyVal) (h : env.isdir d1 = false ∨ env.isdir d2 = false) :
    (check_options env d1 d2 od ch usageText).outcome
      = Outcome.exc "FileNotFoundError" ∧
    usageText ∉ (check_options env d1 d2 od ch usageText).output := by
  rcases h with h | h
  · cases h2 : env.isdir d2 <;> simp [check_options, h, h2] <;> decide
  · cases h1 : env.isdir d1
    · cases h2 : env.isdir d2 <;> simp [check_options, h1, h2] <;> decide
    · cases h3 : hasWavIn env d1 <;> simp [check_options, h1, h, h3] <;> decide

/-- Witness for C2 at a concrete environment with no directories. -/
theorem check_options_missing_dir_raises_witness :
    (check_options envNone "in1" "in2" "out" (PyVal.int 50) usageText).outcome
      = Outcome.exc "FileNotFoundError" ∧
    usageText ∉
      (check_options envNone "in1" "in2" "out" (PyVal.int 50) usageText).output :=
  check_options_missing_dir_raises envNone "in1" "in2" "out" (PyVal.int 50)
    (Or.inl rfl)

/-- Claim C3: with both input directories present and containing wavs and
a usable output directory, `check_options` accepts an integer chunk size
exactly when `10 ≤ chunk_size ≤ 1000`; outside that range it prints the
range message and the usage text and exits with status 1 (before the
synthesis core runs, since `check_options` is called from
`process_options` before `main`'s processing loop). -/
theorem check_options_chunk_range (env : Env) (d1 d2 od : String) (c : ℤ)
    (h1 : env.isdir d1 = true) (h2 : env.isdir d2 = true)
    (h3 : hasWavIn env d1 = true) (h4 : hasWavIn env d2 = true)
    (h5 : (env.isdir od || env.makedirsOk od) = true) :
    ((check_options env d1 d2 od (PyVal.int c) usageText).outcome = Outcome.ok
      ↔ 10 ≤ c ∧ c ≤ 1000) ∧
    (¬(10 ≤ c ∧ c ≤ 1000) →
      check_options env d1 d2 od (PyVal.int c) usageText
        = { output := [msgChunkRange, usageText], outcome := Outcome.exited 1 }) := by
  by_cases hc : c < 10 ∨ 1000 < c
  · simp [check_options, h1, h2, h3, h4, h5, hc]
    omega
  · simp [check_options, h1, h2, h3, h4, h5, hc]
    omega

/-- Witness for C3: chunk size 5 is rejected with the range message,
usage text and exit status 1. -/
theorem check_options_chunk_range_witness :
    ¬(10 ≤ (5 : ℤ) ∧ (5 : ℤ) ≤ 1000) ∧
    check_options envAll "in1" "in2" "out" (PyVal.int 5) usageText
      = { output := [msgChunkRange, usageText], outcome := Outcome.exited 1 } :=
  ⟨by decide,
    (check_options_chunk_range envAll "in1" "in2" "out" 5 rfl rfl rfl rfl
      rfl).2 (by decide)⟩

/-- Claim C4 counterexample: `mandatory_checks` counts option
*occurrences*, so a command line that repeats `--input1` and omits
`--input2` still has count 4 and proceeds past the mandatory-option
check (and then dies with an uncaught `UnboundLocalError` when the
`check_options` call reads the never-assigned `input_dir2`, instead of
printing the error and usage and exiting 1). -/
theorem process_options_duplicate_option_cex :
    mandatoryCount dupOpts = 4 ∧
    (dupOpts.all fun p => decide (p.1 ≠ Opt.input2)) = true ∧
    process_options envAll dupOpts
      = { output := [], outcome := Outcome.exc "UnboundLocalError",
          ret := none } := by
  decide

/-- Claim C4 as amended: the mandatory-option check passes exactly when
the *number of mandatory-option occurrences* equals 4 (which coincides
with "all four supplied" only when no mandatory option is repeated);
whenever the count differs from 4 the error message and usage text are
printed and the run exits with status 1. -/
theorem process_options_mandatory_count (env : Env)
    (opts : List (Opt × String)) (st : POState)
    (hloop : runLoop initState opts = Sum.inr st) :
    st.mandatory_checks = mandatoryCount opts ∧
    (mandatoryCount opts ≠ 4 →
      process_options env opts
        = { output := [msgMandatory, usageText], outcome := Outcome.exited 1,
            ret := none }) ∧
    (mandatoryCount opts = 4 →
      msgMandatory ∉ (process_options env opts).output) := by
  have hmc : st.mandatory_checks = mandatoryCount opts := by
    have h0 := runLoop_inr_mandatory opts initState st hloop
    simpa [initState] using h0
  refine ⟨hmc, ?_, ?_⟩
  · intro h4
    unfold process_options
    rw [hloop]
    simp [hmc, h4]
  · intro h4
    unfold process_options
    rw [hloop]
    simp only [hmc, h4, ne_eq, not_true_eq_false, if_false]
    cases h1 : st.input_dir1 <;> cases h2 : st.input_dir2 <;>
      cases h3 : st.output_dir <;> cases h5 : st.chunk_size <;>
      simp [h1, h2, h3, h5]
    next d1 d2 od cs =>
      cases ho : (check_options env d1 d2 od (PyVal.int cs) usageText).outcome <;>
        simp [ho] <;>
        exact fun hx =>
          absurd (check_options_int_output_subset env d1 d2 od cs msgMandatory hx)
            (by decide)

/-- Witness for C4's amended statement: three mandatory options give
count 3 and the error-plus-usage exit. -/
theorem process_options_mandatory_count_witness :
    process_options envAll optsMissingOne
      = { output := [msgMandatory, usageText], outcome := Outcome.exited 1,
          ret := none } :=
  (process_options_mandatory_count envAll optsMissingOne stMissingOne
    (by decide)).2.1 (by decide)

/-- Claim C5: for directories that exist (so their listings are
defined), the wav scan of `check_options` — the loop-with-else idiom,
embedded as the boolean scan `hasWavIn` — reports "No wavs" for a
directory exactly when no listed file's header identifies a wav, in
which case the usage text is printed and the run exits with status 1
before any synthesis work. -/
theorem check_options_wav_scan (env : Env) (d1 d2 od : String) (ch : PyVal)
    (h1 : env.isdir d1 = true) (h2 : env.isdir d2 = true) :
    (hasWavIn env d1 = false →
      msgNoWav1 ∈ (check_options env d1 d2 od ch usageText).output ∧
      usageText ∈ (check_options env d1 d2 od ch usageText).output ∧
      (check_options env d1 d2 od ch usageText).outcome = Outcome.exited 1) ∧
    (hasWavIn env d1 = true →
      msgNoWav1 ∉ (check_options env d1 d2 od ch usageText).output) ∧
    (hasWavIn env d2 = false →
      msgNoWav2 ∈ (check_options env d1 d2 od ch usageText).output ∧
      usageText ∈ (check_options env d1 d2 od ch usageText).output ∧
      (check_options env d1 d2 od ch usageText).outcome = Outcome.exited 1) ∧
    (hasWavIn env d2 = true →
      msgNoWav2 ∉ (check_options env d1 d2 od ch usageText).output) := by
  cases h3 : hasWavIn env d1 <;> cases h4 : hasWavIn env d2 <;>
    cases h5 : env.isdir od <;> cases h6 : env.makedirsOk od <;>
    rcases ch with n | s
  all_goals first
    | (by_cases hc : n < 10 ∨ 1000 < n <;>
        simp [check_options, h1, h2, h3, h4, h5, h6, hc] <;> decide)
    | (simp [check_options, h1, h2, h3, h4, h5, h6] <;> decide)

/-- Witness for C5: under `envWav2`, input directory 1 lists no wav and
the run reports it, prints usage and exits 1. -/
theorem check_options_wav_scan_witness :
    msgNoWav1
      ∈ (check_options envWav2 "in1" "in2" "out" (PyVal.int 50) usageText).output ∧
    usageText
      ∈ (check_options envWav2 "in1" "in2" "out" (PyVal.int 50) usageText).output ∧
    (check_options envWav2 "in1" "in2" "out" (PyVal.int 50) usageText).outcome
      = Outcome.exited 1 :=
  (check_options_wav_scan envWav2 "in1" "in2" "out" (PyVal.int 50)
    rfl rfl).1 (by decide)

/-- Claim C6 counterexample: `-h` is on the command line, yet because an
unparseable `--chunk_size` argument precedes it in the option loop, the
run raises `ValueError` (interpreter exit status 1) and never prints the
usage text — not the claimed usage-plus-status-0. -/
theorem process_options_bad_chunk_preempts_help :
    Opt.h ∈ optsBadChunkThenHelp.map Prod.fst ∧
    process_options envAll optsBadChunkThenHelp
      = { output := [], outcome := Outcome.exc "ValueError", ret := none } ∧
    exitStatus (process_options envAll optsBadChunkThenHelp) = 1 := by
  decide

/-- Claim C6 as amended: when `-h` is present and every `--chunk_size`
argument preceding it parses as an integer, the program prints the usage
text and exits with status 0; and every run that does not return a
configuration either is that help exit or ends with exit status 1
(`sys.exit(1)`, or the interpreter's status 1 for an uncaught
exception). -/
theorem process_options_exit_codes (env : Env) (opts : List (Opt × String))
    (hh : Opt.h ∈ opts.map Prod.fst)
    (hpre : ∀ p ∈ opts.takeWhile (fun q => decide (q.1 ≠ Opt.h)),
      p.1 = Opt.chunk_size → (pyIntOfString? p.2).isSome = true) :
    process_options env opts
      = { output := [usageText], outcome := Outcome.exited 0, ret := none } ∧
    (∀ (env' : Env) (opts' : List (Opt × String)),
      (process_options env' opts').ret = none →
        process_options env' opts'
          = { output := [usageText], outcome := Outcome.exited 0, ret := none } ∨
        exitStatus (process_options env' opts') = 1) := by
  constructor
  · unfold process_options
    rw [runLoop_help opts initState hh hpre]
  · intro env' opts' hret
    unfold process_options at hret ⊢
    cases hr : runLoop initState opts' with
    | inl l =>
      cases l
      · left; rfl
      · right; rfl
    | inr st =>
      right
      rw [hr] at hret
      by_cases hm : st.mandatory_checks ≠ 4
      · simp [hm, exitStatus]
      · simp only [hm, ite_false, if_false] at hret ⊢
        cases h1 : st.input_dir1 <;> cases h2 : st.input_dir2 <;>
          cases h3 : st.output_dir <;> cases h4 : st.chunk_size <;>
          simp [h1, h2, h3, h4, exitStatus] at hret ⊢ <;> try rfl
        next d1 d2 od cs =>
          have hcase :=
            check_options_outcome_cases env' d1 d2 od (PyVal.int cs) usageText
          cases ho : (check_options env' d1 d2 od (PyVal.int cs) usageText).outcome with
          | ok => rw [ho] at hret; simp at hret
          | exited n =>
            rw [ho] at hcase
            rcases hcase with hcc | hcc | hcc <;> simp at hcc
            simp [ho, exitStatus, hcc]
          | exc e => simp [ho, exitStatus]

/-- Witness for C6's amended statement: a lone `-h` prints the usage and
exits 0. -/
theorem process_options_exit_codes_witness :
    process_options envAll [(Opt.h, "")]
      = { output := [usageText], outcome := Outcome.exited 0, ret := none } :=
  (process_options_exit_codes envAll [(Opt.h, "")] (by decide) (by decide)).1

/-- Claim C7: a command line that requests multiprocessing (`-m`) and
never passes `-c` returns a configuration whose `cores` value is the
default integer 2 (and whose multiprocessing flag is set). -/
theorem process_options_default_cores (env : Env)
    (opts : List (Opt × String)) (cfg : Config)
    (hm : Opt.m ∈ opts.map Prod.fst) (hc : Opt.c ∉ opts.map Prod.fst)
    (hret : (process_options env opts).ret = some cfg) :
    cfg.cores = PyVal.int 2 ∧ cfg.is_mp = true := by
  obtain ⟨st, hr, hcores, hmp⟩ := process_options_ret_state env opts cfg hret
  constructor
  · rw [hcores, runLoop_inr_cores_eq opts initState st hc hr]
    rfl
  · rw [hmp]
    exact runLoop_inr_mp opts initState st hm hr

/-- Witness for C7 on a concrete full command line. -/
theorem process_options_default_cores_witness :
    cfgMp.cores = PyVal.int 2 ∧ cfgMp.is_mp = true :=
  process_options_default_cores envAll optsMp cfgMp (by decide) (by decide)
    (by decide)

/-- Claim C9: when `-c` is supplied, the returned `cores` value is the
raw command-line argument string (line 99 stores `arg` without
conversion); only when `-c` never occurs does the returned value stay
the integer 2. -/
theorem process_options_cores_raw_string (env : Env)
    (opts : List (Opt × String)) (cfg : Config)
    (hret : (process_options env opts).ret = some cfg) :
    (Opt.c ∈ opts.map Prod.fst →
      ∃ a, (Opt.c, a) ∈ opts ∧ cfg.cores = PyVal.str a) ∧
    (Opt.c ∉ opts.map Prod.fst → cfg.cores = PyVal.int 2) := by
  obtain ⟨st, hr, hcores, _⟩ := process_options_ret_state env opts cfg hret
  constructor
  · intro hcm
    obtain ⟨a, hmem, hs⟩ := runLoop_inr_cores_c opts initState st hcm hr
    exact ⟨a, hmem, by rw [hcores, hs]⟩
  · intro hcn
    rw [hcores, runLoop_inr_cores_eq opts initState st hcn hr]
    rfl

/-- Witness for C9 on a concrete command line passing `-c 7`: the
returned `cores` is the string `"7"`. -/
theorem process_options_cores_raw_string_witness :
    ∃ a, (Opt.c, a) ∈ optsCores ∧ cfgCores.cores = PyVal.str a :=
  (process_options_cores_raw_string envAll optsCores cfgCores
    (by decide)).1 (by decide)

/-- Claim C8 counterexample: a command line whose `--chunk_size`
argument is unparseable, but where `-h` comes first, exits 0 at the help
branch — no conversion exception is raised, so the claim's universal
statement fails. -/
theorem process_options_help_preempts_conversion :
    optsHelpThenBadChunk.any badChunkOpt = true ∧
    process_options envAll optsHelpThenBadChunk
      = { output := [usageText], outcome := Outcome.exited 0, ret := none } := by
  decide

/-- Claim C8 as amended: when some `--chunk_size` argument is
unparseable and no `-h` precedes the first such occurrence, the option
loop raises `ValueError` at `int(arg)` with nothing printed — before the
mandatory-option check and before `check_options` runs; and the
"Chunk size must be an integer" branch of `check_options` is unreachable
from `process_options` (which always passes an `int`), so that message
never appears in any run's output. -/
theorem process_options_bad_chunk_raises (env : Env)
    (opts : List (Opt × String))
    (hbad : opts.any badChunkOpt = true)
    (hpre : ∀ p ∈ opts.takeWhile (fun q => !badChunkOpt q), p.1 ≠ Opt.h) :
    process_options env opts
      = { output := [], outcome := Outcome.exc "ValueError", ret := none } ∧
    (∀ (env' : Env) (opts' : List (Opt × String)),
      msgChunkInt ∉ (process_options env' opts').output) := by
  constructor
  · unfold process_options
    rw [runLoop_valueErr opts initState hbad hpre]
  · intro env' opts'
    unfold process_options
    cases hr : runLoop initState opts' with
    | inl l => cases l <;> simp [hr] <;> decide
    | inr st =>
      by_cases hm : st.mandatory_checks ≠ 4
      · simp [hr, hm]
        decide
      · simp only [hr, hm, ite_false, if_false]
        cases h1 : st.input_dir1 <;> cases h2 : st.input_dir2 <;>
          cases h3 : st.output_dir <;> cases h4 : st.chunk_size <;>
          simp [h1, h2, h3, h4]
        next d1 d2 od cs =>
          cases ho : (check_options env' d1 d2 od (PyVal.int cs) usageText).outcome <;>
            simp [ho] <;>
            exact fun hx =>
              absurd
                (check_options_int_output_subset env' d1 d2 od cs msgChunkInt hx)
                (by decide)

/-- Witness for C8's amended statement: `--chunk_size abc` alone raises
`ValueError` with nothing printed. -/
theorem process_options_bad_chunk_raises_witness :
    process_options envAll [(Opt.chunk_size, "abc")]
      = { output := [], outcome := Outcome.exc "ValueError", ret := none } :=
  (process_options_bad_chunk_raises envAll [(Opt.chunk_size, "abc")]
    (by decide) (by decide)).1

/-- Claim C10: with everything else valid and the output directory
missing, `check_options` attempts to create it (`os.makedirs`); the
configuration is accepted when creation succeeds, and is marked invalid
(traceback printed, usage printed, exit 1) only when the creation
attempt itself fails. -/
theorem check_options_makedirs (env : Env) (d1 d2 od : String) (c : ℤ)
    (h1 : env.isdir d1 = true) (h2 : env.isdir d2 = true)
    (h3 : hasWavIn env d1 = true) (h4 : hasWavIn env d2 = true)
    (h5 : (10 : ℤ) ≤ c) (h6 : c ≤ 1000)
    (h7 : env.isdir od = false) :
    (env.makedirsOk od = true →
      check_options env d1 d2 od (PyVal.int c) usageText
        = { output := [], outcome := Outcome.ok }) ∧
    (env.makedirsOk od = false →
      check_options env d1 d2 od (PyVal.int c) usageText
        = { output := [msgTraceback, usageText],
            outcome := Outcome.exited 1 }) := by
  have hc : ¬(c < 10 ∨ 1000 < c) := by omega
  cases h8 : env.makedirsOk od <;>
    simp [check_options, h1, h2, h3, h4, h7, h8, hc]

/-- Witness for C10: a missing output directory with a successful
`makedirs` is accepted. -/
theorem check_options_makedirs_witness :
    check_options envMkdir "in1" "in2" "out" (PyVal.int 50) usageText
      = { output := [], outcome := Outcome.ok } :=
  (check_options_makedirs envMkdir "in1" "in2" "out" 50 (by decide)
    (by decide) (by decide) (by decide) (by decide) (by decide)
    (by decide)).1 rfl

end Chainlink
